import Mathlib

/-!
Verification of the flight domain compiler
(`.flight/bin/flight-domain-compile.py`).

The compiler's data and functions are shallowly embedded below:

* strings of the Python source are modelled as `String` (or `List Char`
  where character-level induction is needed);
* Python dictionaries read through fixed `.get` calls are modelled as
  structures whose fields record exactly the keys the compiler reads;
* Python's `int(...)` (which raises on non-numeric input) is modelled as
  an `Option`-valued parser, and functions that can raise return `Option`;
* Python's stable `sorted(..., key=...)` is modelled with
  `List.insertionSort`, a stable sort by the same key;
* bash interpretation of the generated fragments (double-quote removal,
  single-quote words, process exit status) is modelled by small executable
  interpreters defined here.
-/

namespace Flight

/-- The backslash character. -/
def bsC : Char := '\\'

/-- The double-quote character. -/
def dqC : Char := '"'

/-- The dollar-sign character. -/
def dollarC : Char := '$'

/-- The backtick character (code point 96). -/
def btC : Char := Char.ofNat 96

/-- The single-quote character (code point 39). -/
def sqC : Char := Char.ofNat 39

/-- The newline character. -/
def nlC : Char := '\n'

/-- Python `str.replace` specialised to a single-character needle:
every occurrence of `c` is replaced by `rep`.  (For a one-character
needle Python's left-to-right non-overlapping replacement is exactly
this character-wise map.) -/
def pyReplaceChar (c : Char) (rep : List Char) : List Char → List Char
  | [] => []
  | x :: xs => (if x = c then rep else [x]) ++ pyReplaceChar c rep xs

/-- `escape_bash_pattern` (flight-domain-compile.py lines 653-666):
escape a pattern for use in bash double quotes.  Replaces backslash
first, then double quote, then dollar, then backtick, each by a
backslash-prefixed copy. -/
def escape_bash_pattern (p : List Char) : List Char :=
  pyReplaceChar btC [bsC, btC]
    (pyReplaceChar dollarC [bsC, dollarC]
      (pyReplaceChar dqC [bsC, dqC]
        (pyReplaceChar bsC [bsC, bsC] p)))

/-- The five-character sequence a single quote is rewritten to so that it
survives an enclosing single-quoted bash string: quote, double quote,
quote, double quote, quote. -/
def sqIdiom : List Char := [sqC, dqC, sqC, dqC, sqC]

/-- `escape_for_single_quotes` (flight-domain-compile.py lines 669-675):
escape a string for use inside bash single quotes. -/
def escape_for_single_quotes (s : List Char) : List Char :=
  pyReplaceChar sqC sqIdiom s

/-- `escape_pattern_for_bash_c` (flight-domain-compile.py lines 678-695):
escape a pattern for use inside `bash -c` with the pattern double-quoted
for the inner grep.  Replaces backslash, then dollar, then double quote,
then backtick (for the inner double-quoted layer), and finally rewrites
single quotes with `sqIdiom` (for the outer single-quoted layer). -/
def escape_pattern_for_bash_c (p : List Char) : List Char :=
  pyReplaceChar sqC sqIdiom
    (pyReplaceChar btC [bsC, btC]
      (pyReplaceChar dqC [bsC, dqC]
        (pyReplaceChar dollarC [bsC, dollarC]
          (pyReplaceChar bsC [bsC, bsC] p))))

/-- Bash's interpretation of the body of a double-quoted string: a
backslash is removed when it precedes dollar, backtick, double quote or
backslash; a backslash-newline pair is removed entirely (line
continuation); a backslash before any other character stays literal, as
does the character after it; every other character is literal. -/
def dqUnquote : List Char → List Char
  | [] => []
  | [c] => [c]
  | c1 :: c2 :: rest =>
    if c1 = bsC then
      if c2 = dollarC ∨ c2 = btC ∨ c2 = dqC ∨ c2 = bsC then c2 :: dqUnquote rest
      else if c2 = nlC then dqUnquote rest
      else c1 :: c2 :: dqUnquote rest
    else c1 :: dqUnquote (c2 :: rest)

/-- Quoting state of the bash word parser: inside single quotes, inside
double quotes, or outside any quotes. -/
inductive ShMode
  | sq
  | dq
  | bare
deriving DecidableEq

/-- Bash's parse of a word's characters, starting in the given quoting
mode, returning the literal characters the word denotes.  In single
quotes everything except the closing quote is literal; outside quotes a
quote character switches mode and a backslash escapes the next
character; inside double quotes the rules of `dqUnquote` apply. -/
def shWordUnquote : ShMode → List Char → List Char
  | _, [] => []
  | ShMode.sq, c :: rest =>
    if c = sqC then shWordUnquote ShMode.bare rest
    else c :: shWordUnquote ShMode.sq rest
  | ShMode.bare, [c] =>
    if c = sqC ∨ c = dqC ∨ c = bsC then [] else [c]
  | ShMode.bare, c :: d :: rest =>
    if c = sqC then shWordUnquote ShMode.sq (d :: rest)
    else if c = dqC then shWordUnquote ShMode.dq (d :: rest)
    else if c = bsC then d :: shWordUnquote ShMode.bare rest
    else c :: shWordUnquote ShMode.bare (d :: rest)
  | ShMode.dq, [c] =>
    if c = dqC then [] else [c]
  | ShMode.dq, c :: d :: rest =>
    if c = dqC then shWordUnquote ShMode.bare (d :: rest)
    else if c = bsC then
      if d = dollarC ∨ d = btC ∨ d = dqC ∨ d = bsC then d :: shWordUnquote ShMode.dq rest
      else if d = nlC then shWordUnquote ShMode.dq rest
      else c :: d :: shWordUnquote ShMode.dq rest
    else c :: shWordUnquote ShMode.dq (d :: rest)

/-- The string the inner `grep` actually receives in the nested context:
the emitted text sits inside a single-quoted `bash -c` string of the
top-level script (outer layer, starting in single-quote mode), and the
surviving text is then a double-quoted argument of the inner bash
invocation (inner layer). -/
def nestedInterp (s : List Char) : List Char :=
  dqUnquote (shWordUnquote ShMode.sq s)

/-- Character-wise normal form of `escape_bash_pattern`: the four
characters special inside bash double quotes get a backslash prefix. -/
def escDqChar (c : Char) : List Char :=
  if c = bsC ∨ c = dqC ∨ c = dollarC ∨ c = btC then [bsC, c] else [c]

/-- Character-wise map of `escDqChar` over a string. -/
def escDq : List Char → List Char
  | [] => []
  | c :: rest => escDqChar c ++ escDq rest

/-- Character-wise normal form of `escape_pattern_for_bash_c`: the four
double-quote-special characters get a backslash prefix, a single quote
becomes `sqIdiom`, everything else is literal. -/
def escNestedChar (c : Char) : List Char :=
  if c = bsC ∨ c = dqC ∨ c = dollarC ∨ c = btC then [bsC, c]
  else if c = sqC then sqIdiom
  else [c]

/-- Character-wise map of `escNestedChar` over a string. -/
def escNested : List Char → List Char
  | [] => []
  | c :: rest => escNestedChar c ++ escNested rest

/-- Python's lexicographic comparison of strings (code-point order),
used by validate_spec to compare ISO date strings. -/
def pyStrLtChars : List Char → List Char → Bool
  | [], [] => false
  | [], _ :: _ => true
  | _ :: _, [] => false
  | a :: as, b :: bs => if a < b then true else if b < a then false else pyStrLtChars as bs

/-- Python `a < b` on strings. -/
def pyStrLt (a b : String) : Bool := pyStrLtChars a.data b.data

/-- Numeric value of a digit string, skipping underscores. -/
def digitsValAux (acc : Nat) : List Char → Nat
  | [] => acc
  | c :: rest =>
    if c = '_' then digitsValAux acc rest
    else digitsValAux (acc * 10 + (c.toNat - 48)) rest

/-- Tail of the digit syntax accepted by Python `int()`: digits with
single underscores strictly between digits. -/
def pyDigitsTail : List Char → Bool
  | [] => true
  | ['_'] => false
  | '_' :: d :: rest => d.isDigit && pyDigitsTail rest
  | c :: rest => c.isDigit && pyDigitsTail rest

/-- Python `int(s)` on a base-10 string literal: optional surrounding
whitespace, an optional sign, then digits (single underscores allowed
between digits); any other input raises ValueError, modelled as `none`. -/
def pyIntChars (s : List Char) : Option Int :=
  let t := ((s.dropWhile Char.isWhitespace).reverse.dropWhile Char.isWhitespace).reverse
  match t with
  | [] => none
  | c :: rest =>
    if c = '+' then
      match rest with
      | [] => none
      | d :: rest2 =>
        if d.isDigit && pyDigitsTail rest2 then some ((digitsValAux 0 rest : Nat) : Int) else none
    else if c = '-' then
      match rest with
      | [] => none
      | d :: rest2 =>
        if d.isDigit && pyDigitsTail rest2 then some (-((digitsValAux 0 rest : Nat) : Int))
        else none
    else
      if c.isDigit && pyDigitsTail rest then some ((digitsValAux 0 t : Nat) : Int) else none

/-- Python `int` applied to a `String`. -/
def pyInt (s : String) : Option Int := pyIntChars s.data

/-- SEVERITIES (flight-domain-compile.py line 27). -/
def SEVERITIES : List String := ["NEVER", "MUST", "SHOULD", "GUIDANCE"]

/-- valid_types (line 251): the check types known to validate_spec. -/
def valid_types : List String := ["grep", "presence", "script", "multi-condition", "file_exists"]

/-- One entry of a multi-condition check's conditions list, holding the
keys the compiler reads: `cond.get("pattern", "")` and
`cond.get("flags", "-Ei")`. -/
structure Cond where
  pattern : String := ""
  flags : String := "-Ei"
deriving DecidableEq

/-- A check configuration dictionary, holding the keys read by
validate_spec, generate_check_command and convert_check_to_rule.
`type := none` models an absent "type" key; plain-string fields bake in
the compiler's `.get(key, default)` defaults; `query` is carried by ast
checks in the YAML but is never read by this compiler.  (A YAML list
value for "flags" is joined by generate_check_command; that variant is
not modelled.) -/
structure Check where
  type : Option String := none
  pattern : String := ""
  flags : Option String := none
  message : Option String := none
  logic : String := "AND"
  conditions : List Cond := []
  paths : List String := []
  code : String := ""
  query : Option String := none
deriving DecidableEq

/-- Rule-level provenance as read by validate_spec
(`rule_data.get("provenance", {})`): truthiness of "sources", the
"re_verify_after" value, and "confidence" with default "high".  The
all-default value models a missing or empty provenance mapping. -/
structure RawProvenance where
  sources : Bool := false
  re_verify_after : Option String := none
  confidence : String := "high"
deriving DecidableEq

/-- A raw rule mapping as read by validate_spec: presence of the
"title" and "severity" keys, truthiness of "mechanical" and of the
"check" dictionary (`check := none` models a missing or empty check
mapping), and the provenance mapping. -/
structure RawRule where
  title : Option String := none
  severity : Option String := none
  mechanical : Bool := false
  check : Option Check := none
  provenance : RawProvenance := {}
deriving DecidableEq

/-- Domain-level provenance as read by validate_spec. -/
structure RawDomainProvenance where
  next_audit_due : Option String := none
deriving DecidableEq

/-- A raw domain spec as consumed by validate_spec: presence of the two
required top-level keys, the rules mapping in insertion order, the info
section's (id, pattern) pairs, and the domain provenance mapping
(`none` models missing or empty; non-dict rule values, skipped by the
source with `continue`, are not represented). -/
structure RawSpec where
  hasDomain : Bool := true
  hasRules : Bool := true
  rules : List (String × RawRule) := []
  info : List (String × String) := []
  provenance : Option RawDomainProvenance := none
deriving DecidableEq

/-- Errors contributed by the conditions of a multi-condition check
(validate_spec lines 266-272), with their running index.  `vr` models
validate_regex_pattern, i.e. whether Python's `re.compile` accepts a
pattern (an external facility, supplied as a parameter). -/
def condErrors (vr : String → Bool) (domain rid : String) : Nat → List Cond → List String
  | _, [] => []
  | i, c :: rest =>
    (if c.pattern ≠ "" ∧ ¬ vr c.pattern then
      [domain ++ ".flight: Rule " ++ rid ++ " condition " ++ toString i ++
        " has invalid regex pattern"]
    else []) ++ condErrors vr domain rid (i + 1) rest

/-- Errors contributed by one rule (validate_spec lines 229-272):
missing title, missing severity, invalid non-empty severity, mechanical
with no check config, and, when a non-empty check is present, unknown
non-empty check type, invalid non-empty grep/presence pattern, and
invalid multi-condition condition patterns. -/
def ruleErrors (vr : String → Bool) (domain rid : String) (r : RawRule) : List String :=
  (if r.title.isSome then [] else
    [domain ++ ".flight: Rule " ++ rid ++ " missing \x27title\x27"]) ++
  (if r.severity.isSome then [] else
    [domain ++ ".flight: Rule " ++ rid ++ " missing \x27severity\x27"]) ++
  (let sev := r.severity.getD ""
   if sev ≠ "" ∧ sev ∉ SEVERITIES then
     [domain ++ ".flight: Rule " ++ rid ++ " has invalid severity \x27" ++ sev ++ "\x27"]
   else []) ++
  (if r.mechanical ∧ r.check.isNone then
    [domain ++ ".flight: Rule " ++ rid ++ " has mechanical:true but no check config"]
  else []) ++
  (match r.check with
   | none => []
   | some c =>
     (match c.type with
      | none => []
      | some t =>
        if t ≠ "" ∧ t ∉ valid_types then
          [domain ++ ".flight: Rule " ++ rid ++ " has unknown check type \x27" ++ t ++ "\x27"]
        else []) ++
     (if c.type = some "grep" ∨ c.type = some "presence" then
       if c.pattern ≠ "" ∧ ¬ vr c.pattern then
         [domain ++ ".flight: Rule " ++ rid ++ " has invalid regex pattern"]
       else []
     else []) ++
     (if c.type = some "multi-condition" then condErrors vr domain rid 0 c.conditions
      else []))

/-- Warnings contributed by one rule (validate_spec lines 274-290), all
conditional on the rule being mechanical: no provenance sources, a
re_verify_after date earlier than today, and low confidence. -/
def ruleWarnings (today domain rid : String) (r : RawRule) : List String :=
  if r.mechanical then
    (if r.provenance.sources then [] else
      [domain ++ ".flight: Rule " ++ rid ++ " has no sources (unverifiable)"]) ++
    (match r.provenance.re_verify_after with
     | none => []
     | some d =>
       if d ≠ "" ∧ pyStrLt d today then
         [domain ++ ".flight: Rule " ++ rid ++ " is stale (due " ++ d ++ ")"]
       else []) ++
    (if r.provenance.confidence = "low" then
      [domain ++ ".flight: Rule " ++ rid ++ " has low confidence"]
    else [])
  else []

/-- validate_spec (lines 206-312): returns (errors, warnings).  `vr`
models the external validate_regex_pattern facility and `today` the
current date's ISO string. -/
def validate_spec (vr : String → Bool) (today : String) (data : RawSpec) (domain : String) :
    List String × List String :=
  let topErrs :=
    (if data.hasDomain then [] else
      [domain ++ ".flight: Missing required field \x27domain\x27"]) ++
    (if data.hasRules then [] else
      [domain ++ ".flight: Missing required field \x27rules\x27"])
  let rErrs := (data.rules.map (fun p => ruleErrors vr domain p.1 p.2)).flatten
  let rWarns := (data.rules.map (fun p => ruleWarnings today domain p.1 p.2)).flatten
  let infoErrs := (data.info.map (fun p =>
    if p.2 ≠ "" ∧ ¬ vr p.2 then
      [domain ++ ".flight: Info " ++ p.1 ++ " has invalid regex pattern"]
    else [])).flatten
  let domWarns :=
    match data.provenance with
    | none => []
    | some dp =>
      match dp.next_audit_due with
      | none => []
      | some d =>
        if d ≠ "" ∧ pyStrLt d today then
          [domain ++ ".flight: Domain audit overdue (due " ++ d ++ ")"]
        else []
  (topErrs ++ rErrs ++ infoErrs, rWarns ++ domWarns)

/-- Rule-level provenance fields read by convert_check_to_rule (the
parsed RuleProvenance dataclass of lines 51-58; `sources` and
`superseded_by` are never read by the exporter and are omitted). -/
structure RuleProvenance where
  last_verified : Option String := none
  confidence : String := "high"
  re_verify_after : Option String := none
deriving DecidableEq

/-- A parsed Rule (dataclass of lines 71-83).  `note` and `examples`
feed only the markdown generator and are omitted. -/
structure Rule where
  id : String
  title : String := ""
  severity : String := "GUIDANCE"
  mechanical : Bool := false
  description : String := ""
  check : Check := {}
  api_files_only : Bool := false
  provenance : Option RuleProvenance := none
deriving DecidableEq

/-- Parsed domain-level provenance (dataclass of lines 61-68), the
fields read by the exporter. -/
structure DomainProvenance where
  last_full_audit : Option String := none
  audited_by : Option String := none
  next_audit_due : Option String := none
deriving DecidableEq

/-- A parsed DomainSpec (dataclass of lines 86-101).  `rules` lists the
rules dictionary's values in insertion order (parse_rules sets each
value's `id` to its key).  Fields feeding only the markdown generator
or the script header are omitted. -/
structure DomainSpec where
  domain : String := ""
  version : String := "1.0.0"
  description : String := ""
  file_patterns : List String := []
  rules : List Rule := []
  exclude_patterns : List String := []
  provenance : Option DomainProvenance := none
deriving DecidableEq

/-- The per-rule sort key of rules_by_severity (line 106):
`(r.id[0], int(r.id[1:]))`.  `none` models the exception raised on an
empty id (IndexError) or an id tail that is not an integer literal
(ValueError). -/
def ruleSortKey (rid : String) : Option (Char × Int) :=
  match rid.data with
  | [] => none
  | c :: rest => (pyIntChars rest).map (fun n => (c, n))

/-- Defaulted key, used only where every key is known to exist. -/
def ruleKeyD (r : Rule) : Char × Int := (ruleSortKey r.id).getD ('A', 0)

/-- Python's comparison of `(char, int)` key tuples:
lexicographic. -/
def keyPairLe (a b : Char × Int) : Prop :=
  a.1 < b.1 ∨ (a.1 = b.1 ∧ a.2 ≤ b.2)

instance : DecidableRel keyPairLe := fun a b => by
  unfold keyPairLe
  infer_instance

/-- Totality of `keyPairLe`. -/
def keyPairLe_total : ∀ a b : Char × Int, keyPairLe a b ∨ keyPairLe b a := by
  intro a b
  rcases lt_trichotomy a.1 b.1 with h | h | h
  · exact Or.inl (Or.inl h)
  · rcases le_total a.2 b.2 with h2 | h2
    · exact Or.inl (Or.inr ⟨h, h2⟩)
    · exact Or.inr (Or.inr ⟨h.symm, h2⟩)
  · exact Or.inr (Or.inl h)

/-- Transitivity of `keyPairLe`. -/
def keyPairLe_trans : ∀ a b c : Char × Int, keyPairLe a b → keyPairLe b c → keyPairLe a c := by
  intro a b c hab hbc
  rcases hab with h1 | ⟨h1, h2⟩
  · rcases hbc with g1 | ⟨g1, g2⟩
    · exact Or.inl (lt_trans h1 g1)
    · exact Or.inl (by rw [← g1]; exact h1)
  · rcases hbc with g1 | ⟨g1, g2⟩
    · exact Or.inl (by rw [h1]; exact g1)
    · exact Or.inr ⟨h1.trans g1, le_trans h2 g2⟩

/-- Order on rules induced by their sort keys. -/
def ruleKeyLe (r s : Rule) : Prop := keyPairLe (ruleKeyD r) (ruleKeyD s)

instance : DecidableRel ruleKeyLe := fun r s => by
  unfold ruleKeyLe
  infer_instance

instance : IsTotal Rule ruleKeyLe := ⟨fun a b => keyPairLe_total _ _⟩

instance : IsTrans Rule ruleKeyLe := ⟨fun _ _ _ => keyPairLe_trans _ _ _⟩

/-- rules_by_severity (lines 103-106): filter the rules by severity and
sort them by `(id[0], int(id[1:]))`.  Python's `sorted` computes every
element's key up front — raising if any key computation fails, modelled
by `none` — and sorts stably, modelled by the stable
`List.insertionSort` on the same key. -/
def rules_by_severity (spec : DomainSpec) (severity : String) : Option (List Rule) :=
  let rs := spec.rules.filter (fun r => r.severity == severity)
  if rs.all (fun r => (ruleSortKey r.id).isSome) then some (rs.insertionSort ruleKeyLe)
  else none

/-- `escape_bash_pattern` on `String`. -/
def escapeBashPatternS (s : String) : String := String.mk (escape_bash_pattern s.data)

/-- `escape_pattern_for_bash_c` on `String`. -/
def escapePatternForBashCS (s : String) : String := String.mk (escape_pattern_for_bash_c s.data)

/-- `escape_for_single_quotes` on `String`. -/
def escapeForSingleQuotesS (s : String) : String := String.mk (escape_for_single_quotes s.data)

/-- generate_check_command (lines 698-768): the bash fragment for a
rule's check configuration. -/
def generate_check_command (rule : Rule) : String :=
  let check := rule.check
  let checkType := check.type.getD ""
  if checkType = "grep" then
    let flags := check.flags.getD "-E"
    "grep " ++ flags ++ " \"" ++ escapeBashPatternS check.pattern ++ "\" \"$\x7bFILES[@]\x7d\""
  else if checkType = "presence" then
    let flags := check.flags.getD "-l"
    let message := check.message.getD "Pattern not found"
    let flagsTail := if flags.startsWith "-" then flags.drop 1 else flags
    "bash -c \x27grep -q" ++ flagsTail ++ " \"" ++ escapePatternForBashCS check.pattern ++
      "\" \"$@\" || echo \"" ++ escapeForSingleQuotesS message ++
      "\"\x27 _ \"$\x7bFILES[@]\x7d\""
  else if checkType = "script" then
    let code := escapeForSingleQuotesS check.code.trim
    "bash -c \x27" ++ code ++ "\x27 _ \"$\x7bFILES[@]\x7d\""
  else if checkType = "multi-condition" then
    if check.conditions.length < 2 then "# multi-condition with < 2 conditions"
    else
      let checks := check.conditions.map (fun cond =>
        "grep -q" ++ cond.flags.drop 1 ++ " \"" ++ escapePatternForBashCS cond.pattern ++
          "\" \"$f\"")
      let combined := String.intercalate (if check.logic = "AND" then " && " else " || ") checks
      "bash -c \x27\n        for f in \"$@\"; do\n            if " ++ combined ++
        " 2>/dev/null; then\n                echo \"$f: condition matched\"\n            fi\n        done\n    \x27 _ \"$\x7bFILES[@]\x7d\""
  else if checkType = "file_exists" then
    let message := check.message.getD "Required files not found"
    let pathList := String.intercalate " " check.paths
    "bash -c \x27\n            if ! ls " ++ pathList ++
      " 2>/dev/null | head -1 | grep -q .; then\n                echo \"" ++ message ++
      "\"\n            fi\n        \x27 "
  else
    "# Unknown check type: " ++ checkType

/-- Drop `pat` from the front of a string, or `none` when it is not a
prefix. -/
def dropLit : List Char → List Char → Option (List Char)
  | [], s => some s
  | _ :: _, [] => none
  | p :: ps, c :: cs => if c = p then dropLit ps cs else none

/-- Python `str.replace` for a general needle: left-to-right
non-overlapping replacement.  Fuel (the subject's length) makes the
recursion structural. -/
def replaceFuel (pat rep : List Char) : Nat → List Char → List Char
  | 0, s => s
  | _ + 1, [] => []
  | n + 1, c :: rest =>
    match dropLit pat (c :: rest) with
    | some tail => rep ++ replaceFuel pat rep n tail
    | none => c :: replaceFuel pat rep n rest

/-- Python `s.replace(pat, rep)` on `String`. -/
def replaceSub (s pat rep : String) : String :=
  String.mk (replaceFuel pat.data rep.data s.data.length s.data)

/-- Whether `pre` is a prefix of `s`. -/
def beginsWith (s pre : String) : Bool := (dropLit pre.data s.data).isSome

/-- The fragment generate_rule_sh embeds for a rule: for api_files_only
rules every occurrence of the FILES array is replaced by the
API_ENDPOINT_FILES array (lines 782-789). -/
def effective_cmd (r : Rule) : String :=
  let cmd := generate_check_command r
  if r.api_files_only then replaceSub cmd "$\x7bFILES[@]\x7d" "$\x7bAPI_ENDPOINT_FILES[@]\x7d"
  else cmd

/-- Runtime effect of one emitted rule block on the (PASS, FAIL, WARN)
counters.  `exec` abstracts running a bash fragment and capturing its
stdout; nonempty output is a violation.  An api_files_only rule with no
API endpoint files is reported as passed without running its check
(lines 792-801); otherwise NEVER/MUST rules run under the hard-fail
`check` wrapper and all other rules under the soft `warn` wrapper (line
776), which increment FAIL resp. WARN on nonempty output and PASS on
empty output (script header lines 542-570). -/
def runRule (exec : String → String) (apiNonempty : Bool) (st : Nat × Nat × Nat) (r : Rule) :
    Nat × Nat × Nat :=
  if r.api_files_only && !apiNonempty then (st.1 + 1, st.2.1, st.2.2)
  else if r.severity == "NEVER" || r.severity == "MUST" then
    if exec (effective_cmd r) == "" then (st.1 + 1, st.2.1, st.2.2)
    else (st.1, st.2.1 + 1, st.2.2)
  else
    if exec (effective_cmd r) == "" then (st.1 + 1, st.2.1, st.2.2)
    else (st.1, st.2.1, st.2.2 + 1)

/-- The mechanical rules in the order generate_sh emits their blocks
(lines 877-887): the severities NEVER, MUST, SHOULD in that fixed
order, each block being the mechanical subset of the sorted
rules_by_severity result; `none` when a sort raises. -/
def sh_mechanical_rules (spec : DomainSpec) : Option (List Rule) :=
  match rules_by_severity spec "NEVER" with
  | none => none
  | some a =>
    match rules_by_severity spec "MUST" with
    | none => none
    | some b =>
      match rules_by_severity spec "SHOULD" with
      | none => none
      | some c =>
        some (a.filter (fun r => r.mechanical) ++ b.filter (fun r => r.mechanical) ++
          c.filter (fun r => r.mechanical))

/-- Final (PASS, FAIL, WARN) counters of a run of the generated script
on a nonempty file set: the emitted rule blocks fold over the zeroed
counters. -/
def run_validator (spec : DomainSpec) (exec : String → String) (apiNonempty : Bool) :
    Option (Nat × Nat × Nat) :=
  (sh_mechanical_rules spec).map (fun rs => rs.foldl (runRule exec apiNonempty) (0, 0, 0))

/-- Observed exit status of the generated script: the footer executes
`exit "$FAIL"` (line 855), and a POSIX process exit status carries only
the low 8 bits of the exit argument, so the observed status is
FAIL mod 256. -/
def validator_exit (spec : DomainSpec) (exec : String → String) (apiNonempty : Bool) :
    Option Nat :=
  (run_validator spec exec apiNonempty).map (fun t => t.2.1 % 256)

/-- A rule block that increments FAIL in a given run. -/
def hardViolation (exec : String → String) (apiNonempty : Bool) (r : Rule) : Bool :=
  !(r.api_files_only && !apiNonempty) && (r.severity == "NEVER" || r.severity == "MUST") &&
    !(exec (effective_cmd r) == "")

/-- A rule block that increments WARN in a given run. -/
def softViolation (exec : String → String) (apiNonempty : Bool) (r : Rule) : Bool :=
  !(r.api_files_only && !apiNonempty) && !(r.severity == "NEVER" || r.severity == "MUST") &&
    !(exec (effective_cmd r) == "")

/-- A rule block that increments PASS in a given run. -/
def passOutcome (exec : String → String) (apiNonempty : Bool) (r : Rule) : Bool :=
  (r.api_files_only && !apiNonempty) || (exec (effective_cmd r) == "")

/-- Provenance sub-object of a rule-database record: the fields
convert_check_to_rule includes when truthy (lines 965-975). -/
structure JsonProvenance where
  last_verified : Option String := none
  confidence : Option String := none
  re_verify_after : Option String := none
deriving DecidableEq

/-- One record of the exported rule database (lines 955-963). -/
structure JsonRule where
  id : String
  title : String
  severity : String
  type : String
  pattern : String
  query : Option String
  message : String
  provenance : Option JsonProvenance := none
deriving DecidableEq

/-- The provenance sub-object built by convert_check_to_rule (lines
966-975): each field is included when truthy, and the whole object is
omitted when no field is. -/
def convert_provenance (p : RuleProvenance) : Option JsonProvenance :=
  let lv : Option String :=
    match p.last_verified with
    | some s => if s ≠ "" then some s else none
    | none => none
  let cf : Option String := if p.confidence ≠ "" then some p.confidence else none
  let rv : Option String :=
    match p.re_verify_after with
    | some s => if s ≠ "" then some s else none
    | none => none
  if lv.isSome || cf.isSome || rv.isSome then
    some { last_verified := lv, confidence := cf, re_verify_after := rv }
  else none

/-- convert_check_to_rule (lines 939-977): `None` for non-mechanical
rules and for check types other than grep and presence (the type
defaulting to "grep" when absent); otherwise a record whose type is the
literal "grep", whose pattern is the check's pattern string, whose
query is null, and whose message is the stripped description when
non-empty, else the title. -/
def convert_check_to_rule (rule : Rule) : Option JsonRule :=
  if !rule.mechanical then none
  else
    let checkType := rule.check.type.getD "grep"
    if !(checkType == "grep" || checkType == "presence") then none
    else
      some {
        id := rule.id
        title := rule.title
        severity := rule.severity
        type := "grep"
        pattern := rule.check.pattern
        query := none
        message := if rule.description ≠ "" then rule.description.trim else rule.title
        provenance :=
          match rule.provenance with
          | none => none
          | some p => convert_provenance p }

/-- sort_key of generate_rules_json (lines 992-996): the record id's
first character paired with `int(id[1:])` when the tail is a non-empty
all-digit string, else 0.  (Record ids are non-empty; an empty id would
raise IndexError in the source.) -/
def json_sort_key (e : JsonRule) : Char × Int :=
  (e.id.data.headD 'A',
    let numeric := e.id.data.drop 1
    if numeric ≠ [] ∧ numeric.all Char.isDigit then ((digitsValAux 0 numeric : Nat) : Int)
    else 0)

/-- Order on records induced by `json_sort_key`. -/
def jsonKeyLe (a b : JsonRule) : Prop := keyPairLe (json_sort_key a) (json_sort_key b)

instance : DecidableRel jsonKeyLe := fun a b => by
  unfold jsonKeyLe
  infer_instance

instance : IsTotal JsonRule jsonKeyLe := ⟨fun a b => keyPairLe_total _ _⟩

instance : IsTrans JsonRule jsonKeyLe := ⟨fun _ _ _ => keyPairLe_trans _ _ _⟩

/-- The rules list of the exported rule database (generate_rules_json
lines 985-998): the rules converted in declaration order, then sorted
stably by sort_key. -/
def generate_rules_json_rules (spec : DomainSpec) : List JsonRule :=
  (spec.rules.filterMap convert_check_to_rule).insertionSort jsonKeyLe

/-- `small` occurs contiguously inside `big`. -/
def containsStr (big small : String) : Prop := ∃ a b : String, big = a ++ small ++ b

/-- A pattern engine accepting every pattern (a legitimate
instantiation of the validate_regex_pattern parameter, used for
concrete inputs whose patterns are all valid regexes). -/
def vrAll : String → Bool := fun _ => true

/-- A fragment runner that captures no output from any fragment. -/
def execEmpty : String → String := fun _ => ""

/-- A fragment runner on whose file set every check finds a violation
(every fragment prints evidence). -/
def veAll : String → String := fun _ => "violation"

/-- A raw spec with a mechanical grep rule whose check has no pattern
key and a mechanical multi-condition rule with a single condition, both
otherwise valid. -/
def c2CexSpec : RawSpec :=
  { rules := [
      ("N1", { title := some "No eval", severity := some "NEVER", mechanical := true,
               check := some { type := some "grep" } }),
      ("M1", { title := some "Both halves", severity := some "MUST", mechanical := true,
               check := some { type := some "multi-condition",
                               conditions := [{ pattern := "half" }] } })] }

/-- A raw mechanical ast rule (query present), otherwise valid. -/
def c3AstRule : RawRule :=
  { title := some "No eval", severity := some "NEVER", mechanical := true,
    check := some { type := some "ast", query := some "(call_expression) @c" } }

/-- A raw spec with one mechanical ast rule (query present), otherwise
valid. -/
def c3FailSpec : RawSpec := { rules := [("N1", c3AstRule)] }

/-- The raw grep rule of `c2CexSpec` (no pattern key). -/
def c2GrepRule : RawRule :=
  { title := some "No eval", severity := some "NEVER", mechanical := true,
    check := some { type := some "grep" } }

/-- A raw mechanical multi-condition rule with an empty conditions
list, otherwise valid. -/
def c2MultiEmptyRule : RawRule :=
  { title := some "Both halves", severity := some "MUST", mechanical := true,
    check := some { type := some "multi-condition" } }

/-- A parsed mechanical rule whose check is an ast check with a
query. -/
def c4AstRule : Rule :=
  { id := "N1", title := "No eval", severity := "NEVER", mechanical := true,
    description := "Do not use eval.",
    check := { type := some "ast", query := some "(call_expression) @c" } }

/-- A parsed spec containing only the mechanical ast rule. -/
def c4FailSpec : DomainSpec := { domain := "demo", rules := [c4AstRule] }

/-- Mechanical NEVER grep rule N1 of the declaration-order
counterexample. -/
def c5N1Rule : Rule :=
  { id := "N1", title := "first by id", severity := "NEVER", mechanical := true,
    check := { type := some "grep", pattern := "alpha" } }

/-- Mechanical NEVER grep rule N2 of the declaration-order
counterexample. -/
def c5N2Rule : Rule :=
  { id := "N2", title := "second by id", severity := "NEVER", mechanical := true,
    check := { type := some "grep", pattern := "beta" } }

/-- A parsed spec declaring N2 before N1. -/
def c5CexSpec : DomainSpec := { domain := "demo", rules := [c5N2Rule, c5N1Rule] }

/-- The decimal digit character for `d mod 10`. -/
def digitChar (d : Nat) : Char := Char.ofNat (48 + d % 10)

/-- The rule id "N" followed by a three-digit decimal numeral of `n`
(distinct for distinct `n < 1000`). -/
def threeDigitId (n : Nat) : String :=
  String.mk ['N', digitChar (n / 100), digitChar (n / 10), digitChar n]

/-- The n-th mechanical NEVER grep rule of the 256-rule spec. -/
def c6CexRule (n : Nat) : Rule :=
  { id := threeDigitId n, title := "no tabs", severity := "NEVER", mechanical := true,
    check := { type := some "grep", pattern := "x" } }

/-- A parsed spec with 256 mechanical NEVER rules. -/
def c6CexSpec : DomainSpec := { domain := "demo", rules := (List.range 256).map c6CexRule }

/-- A single mechanical NEVER grep rule. -/
def c6WitnessRule : Rule :=
  { id := "N1", title := "no tabs", severity := "NEVER", mechanical := true,
    check := { type := some "grep", pattern := "x" } }

/-- A parsed spec with the single mechanical NEVER rule. -/
def c6WitnessSpec : DomainSpec := { domain := "demo", rules := [c6WitnessRule] }

/-- A mechanical NEVER grep rule with the given id. -/
def c7Rule (rid : String) : Rule :=
  { id := rid, title := "rule", severity := "NEVER", mechanical := true,
    check := { type := some "grep", pattern := "p" } }

/-- A parsed spec declaring rule ids N2, N1, S10, S2, M1 in that
order. -/
def c7Spec : DomainSpec :=
  { domain := "demo",
    rules := [c7Rule "N2", c7Rule "N1", c7Rule "S10", c7Rule "S2", c7Rule "M1"] }

/-- A raw rule that is mechanical with no check mapping, otherwise
valid. -/
def c8WitnessRule : RawRule :=
  { title := some "No eval", severity := some "NEVER", mechanical := true, check := none }

/-- A raw spec whose single rule has id "QA1" (two letters before the
ordinal), valid in every respect the validator examines. -/
def qa1RawSpec : RawSpec :=
  { rules := [
      ("QA1", { title := some "Quality gate", severity := some "NEVER", mechanical := true,
                check := some { type := some "grep", pattern := "TODO" } })] }

/-- The parse of `qa1RawSpec`. -/
def qa1Spec : DomainSpec :=
  { domain := "demo",
    rules := [{ id := "QA1", title := "Quality gate", severity := "NEVER",
                mechanical := true, check := { type := some "grep", pattern := "TODO" } }] }

/-- A raw rule whose check mapping is non-empty (it has a pattern) but
has no "type" key, mechanical and otherwise valid. -/
def c10RawRule : RawRule :=
  { title := some "Typeless", severity := some "MUST", mechanical := true,
    check := some { pattern := "x" } }

/-- The parsed rule with a non-empty check mapping and no "type"
key. -/
def c10Rule : Rule :=
  { id := "M1", title := "Typeless", severity := "MUST", mechanical := true,
    check := { pattern := "x" } }

theorem pyReplaceChar_append (c : Char) (rep a b : List Char) :
    pyReplaceChar c rep (a ++ b) = pyReplaceChar c rep a ++ pyReplaceChar c rep b := by
  induction a with
  | nil => simp [pyReplaceChar]
  | cons x xs ih => simp [pyReplaceChar, ih]

theorem escape_bash_pattern_single (c : Char) : escape_bash_pattern [c] = escDqChar c := by
  by_cases h1 : c = bsC
  · subst h1; decide
  by_cases h2 : c = dqC
  · subst h2; decide
  by_cases h3 : c = dollarC
  · subst h3; decide
  by_cases h4 : c = btC
  · subst h4; decide
  have hgen : escape_bash_pattern [c] = [c] := by
    simp [escape_bash_pattern, pyReplaceChar, h1, h2, h3, h4]
  rw [hgen]
  simp [escDqChar, h1, h2, h3, h4]

theorem escape_bash_pattern_eq (p : List Char) : escape_bash_pattern p = escDq p := by
  induction p with
  | nil => rfl
  | cons c cs ih =>
    have step : escape_bash_pattern (c :: cs) =
        escape_bash_pattern [c] ++ escape_bash_pattern cs := by
      show escape_bash_pattern ([c] ++ cs) = _
      simp only [escape_bash_pattern, pyReplaceChar_append]
    rw [step, ih, escape_bash_pattern_single]
    rfl

theorem escape_pattern_for_bash_c_single (c : Char) :
    escape_pattern_for_bash_c [c] = escNestedChar c := by
  by_cases h1 : c = bsC
  · subst h1; decide
  by_cases h2 : c = dqC
  · subst h2; decide
  by_cases h3 : c = dollarC
  · subst h3; decide
  by_cases h4 : c = btC
  · subst h4; decide
  by_cases h5 : c = sqC
  · subst h5; decide
  have hgen : escape_pattern_for_bash_c [c] = [c] := by
    simp [escape_pattern_for_bash_c, pyReplaceChar, h1, h2, h3, h4, h5]
  rw [hgen]
  simp [escNestedChar, h1, h2, h3, h4, h5]

theorem escape_pattern_for_bash_c_eq (p : List Char) :
    escape_pattern_for_bash_c p = escNested p := by
  induction p with
  | nil => rfl
  | cons c cs ih =>
    have step : escape_pattern_for_bash_c (c :: cs) =
        escape_pattern_for_bash_c [c] ++ escape_pattern_for_bash_c cs := by
      show escape_pattern_for_bash_c ([c] ++ cs) = _
      simp only [escape_pattern_for_bash_c, pyReplaceChar_append]
    rw [step, ih, escape_pattern_for_bash_c_single]
    rfl

theorem dqUnquote_cons (c : Char) (l : List Char) (h : c ≠ bsC) :
    dqUnquote (c :: l) = c :: dqUnquote l := by
  cases l with
  | nil => simp [dqUnquote]
  | cons d ds => simp [dqUnquote, h]

theorem dqUnquote_esc (c : Char) (l : List Char)
    (h : c = dollarC ∨ c = btC ∨ c = dqC ∨ c = bsC) :
    dqUnquote (bsC :: c :: l) = c :: dqUnquote l := by
  simp [dqUnquote, h]

theorem dqUnquote_escDq (p : List Char) : dqUnquote (escDq p) = p := by
  induction p with
  | nil => simp [dqUnquote, escDq]
  | cons c cs ih =>
    show dqUnquote (escDqChar c ++ escDq cs) = c :: cs
    by_cases h : c = bsC ∨ c = dqC ∨ c = dollarC ∨ c = btC
    · have hesc : escDqChar c = [bsC, c] := by simp [escDqChar, h]
      have h' : c = dollarC ∨ c = btC ∨ c = dqC ∨ c = bsC := by tauto
      rw [hesc]
      show dqUnquote (bsC :: c :: escDq cs) = c :: cs
      rw [dqUnquote_esc c (escDq cs) h', ih]
    · have hesc : escDqChar c = [c] := by simp [escDqChar, h]
      have hne : c ≠ bsC := fun hc => h (Or.inl hc)
      rw [hesc]
      show dqUnquote (c :: escDq cs) = c :: cs
      rw [dqUnquote_cons c (escDq cs) hne, ih]

theorem shWordUnquote_sq_cons (c : Char) (l : List Char) (h : c ≠ sqC) :
    shWordUnquote ShMode.sq (c :: l) = c :: shWordUnquote ShMode.sq l := by
  simp [shWordUnquote, h]

theorem shWordUnquote_sq_idiom (l : List Char) :
    shWordUnquote ShMode.sq (sqIdiom ++ l) = sqC :: shWordUnquote ShMode.sq l := by
  have hdq : dqC ≠ sqC := by decide
  have hsd : sqC ≠ dqC := by decide
  have hsb : sqC ≠ bsC := by decide
  cases l with
  | nil => decide
  | cons x xs => simp [sqIdiom, shWordUnquote, hdq, hsd, hsb]

theorem shWordUnquote_escNested (p : List Char) :
    shWordUnquote ShMode.sq (escNested p) = escDq p := by
  induction p with
  | nil => rfl
  | cons c cs ih =>
    show shWordUnquote ShMode.sq (escNestedChar c ++ escNested cs) = escDqChar c ++ escDq cs
    by_cases h : c = bsC ∨ c = dqC ∨ c = dollarC ∨ c = btC
    · have h1 : escNestedChar c = [bsC, c] := by simp [escNestedChar, h]
      have h2 : escDqChar c = [bsC, c] := by simp [escDqChar, h]
      have hb : bsC ≠ sqC := by decide
      have hc : c ≠ sqC := by
        rcases h with h | h | h | h <;> subst h <;> decide
      rw [h1, h2]
      show shWordUnquote ShMode.sq (bsC :: c :: escNested cs) = bsC :: c :: escDq cs
      rw [shWordUnquote_sq_cons bsC _ hb, shWordUnquote_sq_cons c _ hc, ih]
    · by_cases h5 : c = sqC
      · subst h5
        have h1 : escNestedChar sqC = sqIdiom := by
          simp [escNestedChar, h]
        have h2 : escDqChar sqC = [sqC] := by simp [escDqChar, h]
        rw [h1, h2, shWordUnquote_sq_idiom, ih]
        rfl
      · have h1 : escNestedChar c = [c] := by simp [escNestedChar, h, h5]
        have h2 : escDqChar c = [c] := by simp [escDqChar, h]
        rw [h1, h2]
        show shWordUnquote ShMode.sq (c :: escNested cs) = c :: escDq cs
        rw [shWordUnquote_sq_cons c _ h5, ih]

/-- C1: for every pattern string, the pattern the emitted fragment
actually searches for equals the original literal pattern, in both
escaping contexts.  In the direct context the emitted text is
interpreted through one bash double-quoted layer (`dqUnquote`); in the
nested context it is interpreted through the single-quoted `bash -c`
word of the top-level script and then the double-quoted layer of the
inner invocation (`nestedInterp`).  Both compositions are the identity,
for all patterns, including those containing backslash, double-quote,
dollar-sign and backtick characters. -/
theorem escaping_roundtrip_identity (p : List Char) :
    dqUnquote (escape_bash_pattern p) = p ∧
    nestedInterp (escape_pattern_for_bash_c p) = p := by
  constructor
  · rw [escape_bash_pattern_eq, dqUnquote_escDq]
  · rw [nestedInterp, escape_pattern_for_bash_c_eq, shWordUnquote_escNested, dqUnquote_escDq]

theorem generate_check_command_typeless (rule : Rule) (h : rule.check.type = none) :
    generate_check_command rule = "# Unknown check type: " := by
  simp [generate_check_command, h]

/-- C3: REFUTED by the code (the repository's own tests expect ast to be
accepted) — "ast" is not in validate_spec's valid_types list, so a rule
whose check has type "ast" (with a query) yields exactly the unknown
check type error the claim says cannot occur for it.  This theorem
evaluates validate_spec at the failing input. -/
theorem ast_rule_triggers_unknown_type_error :
    (validate_spec vrAll "2026-10-12" c3FailSpec "demo").1 =
      ["demo.flight: Rule N1 has unknown check type \x27ast\x27"] := by
  decide

/-- C4: REFUTED by the code (the repository's own tests expect ast
records in the export) — convert_check_to_rule returns None for a
mechanical rule whose check type is "ast", so that rule is absent from
the exported rule database instead of being exported with type "ast"
and its query.  This theorem evaluates the exporter at the failing
input. -/
theorem ast_rule_dropped_from_export :
    convert_check_to_rule c4AstRule = none ∧ generate_rules_json_rules c4FailSpec = [] := by
  decide

/-- C2 counterexample: a spec whose grep check has no pattern key and
whose multi-condition check has only one condition — both type-specific
structural violations the claim says are fatal — validates with an
empty error list. -/
theorem no_error_for_missing_pattern_or_few_conditions :
    (validate_spec vrAll "2026-10-12" c2CexSpec "demo").1 = [] := by
  decide

/-- C2 (amended): validate_spec reports no error for a grep or presence
check with no pattern, and no error for a multi-condition check with an
empty conditions list; an ast check always yields an error, but it is
the unknown-check-type error (regardless of the query), not a
missing-query error. -/
theorem validate_type_specific_behavior :
    (∀ (vr : String → Bool) (today domain rid t s : String) (r : RawRule) (c : Check),
      r.title = some t → r.severity = some s → s ∈ SEVERITIES → r.check = some c →
      (c.type = some "grep" ∨ c.type = some "presence") → c.pattern = "" →
      (validate_spec vr today { rules := [(rid, r)] } domain).1 = []) ∧
    (∀ (vr : String → Bool) (today domain rid t s : String) (r : RawRule) (c : Check),
      r.title = some t → r.severity = some s → s ∈ SEVERITIES → r.check = some c →
      c.type = some "multi-condition" → c.conditions = [] →
      (validate_spec vr today { rules := [(rid, r)] } domain).1 = []) ∧
    (∀ (vr : String → Bool) (today domain rid t s : String) (r : RawRule) (c : Check),
      r.title = some t → r.severity = some s → s ∈ SEVERITIES → r.check = some c →
      c.type = some "ast" →
      (validate_spec vr today { rules := [(rid, r)] } domain).1 =
        [domain ++ ".flight: Rule " ++ rid ++ " has unknown check type \x27ast\x27"]) := by
  refine ⟨?_, ?_, ?_⟩
  · intro vr today domain rid t s r c ht hs hmem hc hty hp
    have hsev : ¬(s ≠ "" ∧ s ∉ SEVERITIES) := fun h => h.2 hmem
    rcases hty with hty | hty <;>
      simp [validate_spec, ruleErrors, ht, hs, hc, hty, hp, hsev, valid_types]
  · intro vr today domain rid t s r c ht hs hmem hc hty hcond
    have hsev : ¬(s ≠ "" ∧ s ∉ SEVERITIES) := fun h => h.2 hmem
    simp [validate_spec, ruleErrors, ht, hs, hc, hty, hcond, hsev, valid_types, condErrors]
  · intro vr today domain rid t s r c ht hs hmem hc hty
    have hsev : ¬(s ≠ "" ∧ s ∉ SEVERITIES) := fun h => h.2 hmem
    have hlit : ∀ X : String,
        X ++ " has unknown check type \x27" ++ "ast" ++ "\x27" =
          X ++ " has unknown check type \x27ast\x27" := by
      intro X
      rw [String.append_assoc, String.append_assoc]
      exact congrArg (fun y => X ++ y) (by decide)
    simp [validate_spec, ruleErrors, ht, hs, hc, hty, hsev, valid_types]
    exact hlit (domain ++ ".flight: Rule " ++ rid)

/-- Witness for the amended C2 theorem at concrete inputs. -/
theorem validate_type_specific_behavior_witness :
    (validate_spec vrAll "2026-10-12" { rules := [("N1", c2GrepRule)] } "demo").1 = [] ∧
    (validate_spec vrAll "2026-10-12" { rules := [("M1", c2MultiEmptyRule)] } "demo").1 = [] ∧
    (validate_spec vrAll "2026-10-12" { rules := [("N1", c3AstRule)] } "demo").1 =
      ["demo.flight: Rule N1 has unknown check type \x27ast\x27"] :=
  ⟨validate_type_specific_behavior.1 vrAll "2026-10-12" "demo" "N1" "No eval" "NEVER"
      c2GrepRule { type := some "grep" } rfl rfl (by decide) rfl (Or.inl rfl) rfl,
   validate_type_specific_behavior.2.1 vrAll "2026-10-12" "demo" "M1" "Both halves" "MUST"
      c2MultiEmptyRule { type := some "multi-condition" } rfl rfl (by decide) rfl rfl rfl,
   validate_type_specific_behavior.2.2 vrAll "2026-10-12" "demo" "N1" "No eval" "NEVER"
      c3AstRule { type := some "ast", query := some "(call_expression) @c" } rfl rfl
      (by decide) rfl rfl⟩

/-- C10: a rule whose check mapping is non-empty but has no "type" key
passes validation with zero errors for that rule (its non-empty check
also satisfies the mechanical-requires-check rule), its check compiles
to the inert comment stub "# Unknown check type: ", and — since a bash
fragment whose text begins with # is a comment producing no output —
its wrapper always records a PASS, never a FAIL or WARN, at script
runtime. -/
theorem typeless_check_validates_and_is_inert (vr : String → Bool) (domain rid : String)
    (r : RawRule) (t s : String) (c : Check)
    (ht : r.title = some t) (hs : r.severity = some s) (hmem : s ∈ SEVERITIES)
    (hc : r.check = some c) (hty : c.type = none) :
    ruleErrors vr domain rid r = [] ∧
    (∀ rule : Rule, rule.check.type = none →
      generate_check_command rule = "# Unknown check type: ") ∧
    (∀ (exec : String → String) (api : Bool) (st : Nat × Nat × Nat) (rule : Rule),
      rule.check.type = none →
      (∀ cmd : String, beginsWith cmd "#" = true → exec cmd = "") →
      runRule exec api st rule = (st.1 + 1, st.2.1, st.2.2)) := by
  refine ⟨?_, fun rule h => generate_check_command_typeless rule h, ?_⟩
  · have hsev : ¬(s ≠ "" ∧ s ∉ SEVERITIES) := fun h => h.2 hmem
    simp [ruleErrors, ht, hs, hc, hty, hsev]
  · intro exec api st rule hty2 hcomment
    have hcmd := generate_check_command_typeless rule hty2
    have hout : exec (effective_cmd rule) = "" := by
      apply hcomment
      simp only [effective_cmd, hcmd]
      by_cases hapi : rule.api_files_only
      · simp only [hapi, if_true]
        decide
      · simp only [hapi, if_false]
        decide
    simp [runRule, hout]

/-- Witness for the C10 theorem at concrete inputs. -/
theorem typeless_check_validates_and_is_inert_witness :
    ruleErrors vrAll "demo" "M1" c10RawRule = [] ∧
    generate_check_command c10Rule = "# Unknown check type: " ∧
    runRule execEmpty true (0, 0, 0) c10Rule = (1, 0, 0) := by
  have h := typeless_check_validates_and_is_inert vrAll "demo" "M1" c10RawRule "Typeless"
    "MUST" { pattern := "x" } rfl rfl (by decide) rfl rfl
  exact ⟨h.1, h.2.1 c10Rule rfl, h.2.2 execEmpty true (0, 0, 0) c10Rule rfl (fun _ _ => rfl)⟩

theorem rules_by_severity_some (spec : DomainSpec) (sev : String) (l : List Rule)
    (h : rules_by_severity spec sev = some l) :
    l = (spec.rules.filter (fun r => r.severity == sev)).insertionSort ruleKeyLe := by
  simp only [rules_by_severity] at h
  by_cases hall : ((spec.rules.filter fun r => r.severity == sev).all
      fun r => (ruleSortKey r.id).isSome) = true
  · rw [if_pos hall] at h
    exact (Option.some_inj.mp h).symm
  · rw [if_neg hall] at h
    exact absurd h (by simp)

theorem mem_rules_by_severity (spec : DomainSpec) (sev : String) (l : List Rule)
    (h : rules_by_severity spec sev = some l) :
    ∀ r ∈ l, r.severity = sev := by
  intro r hr
  rw [rules_by_severity_some spec sev l h] at hr
  have hr2 := (List.perm_insertionSort ruleKeyLe _).mem_iff.mp hr
  exact beq_iff_eq.mp (List.mem_filter.mp hr2).2

theorem block_perm (spec : DomainSpec) (sev : String) (l : List Rule)
    (h : rules_by_severity spec sev = some l) :
    List.Perm (l.filter (fun r => r.mechanical))
      (spec.rules.filter (fun r => r.mechanical && r.severity == sev)) := by
  rw [rules_by_severity_some spec sev l h]
  have hp := (List.perm_insertionSort ruleKeyLe
    (spec.rules.filter (fun r => r.severity == sev))).filter (fun r => r.mechanical)
  rw [List.filter_filter] at hp
  exact hp

theorem block_sorted (spec : DomainSpec) (sev : String) (l : List Rule)
    (h : rules_by_severity spec sev = some l) :
    List.Sorted ruleKeyLe (l.filter (fun r => r.mechanical)) := by
  rw [rules_by_severity_some spec sev l h]
  exact List.Pairwise.filter _ (List.sorted_insertionSort ruleKeyLe _)

/-- C5 counterexample: a spec declaring rule N2 before rule N1 (both
mechanical NEVER rules) emits N1 before N2 in the generated script —
the order within a severity block is sorted order, which differs from
the declaration order of the spec's rules mapping. -/
theorem emitted_order_is_not_declaration_order :
    (sh_mechanical_rules c5CexSpec).map (fun l => l.map (fun r => r.id)) =
      some ["N1", "N2"] ∧
    c5CexSpec.rules.map (fun r => r.id) = ["N2", "N1"] ∧
    (["N1", "N2"] : List String) ≠ ["N2", "N1"] := by
  decide

/-- C5 (amended): mechanical rules are emitted in per-severity blocks
in the fixed order NEVER, MUST, SHOULD, and within each severity block
the rules appear sorted by (category letter, numeric ordinal) — not in
declaration order; each block consists exactly of the declared
mechanical rules of that severity. -/
theorem emission_blocks_fixed_severity_sorted (spec : DomainSpec) (A B C : List Rule)
    (hA : rules_by_severity spec "NEVER" = some A)
    (hB : rules_by_severity spec "MUST" = some B)
    (hC : rules_by_severity spec "SHOULD" = some C) :
    sh_mechanical_rules spec =
      some (A.filter (fun r => r.mechanical) ++ B.filter (fun r => r.mechanical) ++
        C.filter (fun r => r.mechanical)) ∧
    List.Perm (A.filter (fun r => r.mechanical))
      (spec.rules.filter (fun r => r.mechanical && r.severity == "NEVER")) ∧
    List.Perm (B.filter (fun r => r.mechanical))
      (spec.rules.filter (fun r => r.mechanical && r.severity == "MUST")) ∧
    List.Perm (C.filter (fun r => r.mechanical))
      (spec.rules.filter (fun r => r.mechanical && r.severity == "SHOULD")) ∧
    List.Sorted ruleKeyLe (A.filter (fun r => r.mechanical)) ∧
    List.Sorted ruleKeyLe (B.filter (fun r => r.mechanical)) ∧
    List.Sorted ruleKeyLe (C.filter (fun r => r.mechanical)) := by
  refine ⟨?_, block_perm _ _ _ hA, block_perm _ _ _ hB, block_perm _ _ _ hC,
    block_sorted _ _ _ hA, block_sorted _ _ _ hB, block_sorted _ _ _ hC⟩
  simp [sh_mechanical_rules, hA, hB, hC]

/-- Witness for the amended C5 theorem at a concrete spec. -/
theorem emission_blocks_fixed_severity_sorted_witness :
    sh_mechanical_rules c5CexSpec =
      some ([c5N1Rule, c5N2Rule].filter (fun r => r.mechanical) ++
        ([] : List Rule).filter (fun r => r.mechanical) ++
        ([] : List Rule).filter (fun r => r.mechanical)) :=
  (emission_blocks_fixed_severity_sorted c5CexSpec [c5N1Rule, c5N2Rule] [] []
    (by decide) (by decide) (by decide)).1

theorem runRule_foldl_counts (exec : String → String) (api : Bool) :
    ∀ (rs : List Rule) (p f w : Nat),
      rs.foldl (runRule exec api) (p, f, w) =
        (p + rs.countP (passOutcome exec api), f + rs.countP (hardViolation exec api),
          w + rs.countP (softViolation exec api)) := by
  intro rs
  induction rs with
  | nil => intro p f w; simp
  | cons r rest ih =>
    intro p f w
    rw [List.foldl_cons]
    by_cases h1 : (r.api_files_only && !api) = true
    · have hr : runRule exec api (p, f, w) r = (p + 1, f, w) := by simp [runRule, h1]
      have hp : passOutcome exec api r = true := by simp [passOutcome, h1]
      have hh : hardViolation exec api r = false := by simp [hardViolation, h1]
      have hs : softViolation exec api r = false := by simp [softViolation, h1]
      rw [hr, ih]
      simp [List.countP_cons, hp, hh, hs, Prod.ext_iff]
      omega
    · by_cases h2 : (r.severity == "NEVER" || r.severity == "MUST") = true
      · by_cases h3 : (exec (effective_cmd r) == "") = true
        · have hr : runRule exec api (p, f, w) r = (p + 1, f, w) := by
            simp [runRule, h1, h2, h3]
          have hp : passOutcome exec api r = true := by simp [passOutcome, h1, h3]
          have hh : hardViolation exec api r = false := by simp [hardViolation, h1, h2, h3]
          have hs : softViolation exec api r = false := by simp [softViolation, h1, h2, h3]
          rw [hr, ih]
          simp [List.countP_cons, hp, hh, hs, Prod.ext_iff]
          omega
        · have hr : runRule exec api (p, f, w) r = (p, f + 1, w) := by
            simp [runRule, h1, h2, h3]
          have hp : passOutcome exec api r = false := by simp [passOutcome, h1, h3]
          have hh : hardViolation exec api r = true := by simp [hardViolation, h1, h2, h3]
          have hs : softViolation exec api r = false := by simp [softViolation, h1, h2, h3]
          rw [hr, ih]
          simp [List.countP_cons, hp, hh, hs, Prod.ext_iff]
          omega
      · by_cases h3 : (exec (effective_cmd r) == "") = true
        · have hr : runRule exec api (p, f, w) r = (p + 1, f, w) := by
            simp [runRule, h1, h2, h3]
          have hp : passOutcome exec api r = true := by simp [passOutcome, h1, h3]
          have hh : hardViolation exec api r = false := by simp [hardViolation, h1, h2, h3]
          have hs : softViolation exec api r = false := by simp [softViolation, h1, h2, h3]
          rw [hr, ih]
          simp [List.countP_cons, hp, hh, hs, Prod.ext_iff]
          omega
        · have hr : runRule exec api (p, f, w) r = (p, f, w + 1) := by
            simp [runRule, h1, h2, h3]
          have hp : passOutcome exec api r = false := by simp [passOutcome, h1, h3]
          have hh : hardViolation exec api r = false := by simp [hardViolation, h1, h2, h3]
          have hs : softViolation exec api r = true := by simp [softViolation, h1, h2, h3]
          rw [hr, ih]
          simp [List.countP_cons, hp, hh, hs, Prod.ext_iff]
          omega

/-- C6 (amended): the generated script's exit status is the final FAIL
counter reduced mod 256 (the low 8 bits a POSIX exit status can carry);
FAIL counts exactly the violated NEVER/MUST rule blocks and WARN
exactly the violated blocks of other severities (SHOULD, as emitted);
zero NEVER/MUST violations give exit status 0 regardless of WARN, a
positive FAIL count below 256 forces a nonzero exit status, and every
emitted rule is mechanical and never of severity GUIDANCE. -/
theorem severity_enforcement_and_exit (spec : DomainSpec) (exec : String → String)
    (api : Bool) (rs : List Rule) (h : sh_mechanical_rules spec = some rs) :
    run_validator spec exec api =
      some (rs.countP (passOutcome exec api), rs.countP (hardViolation exec api),
        rs.countP (softViolation exec api)) ∧
    validator_exit spec exec api = some (rs.countP (hardViolation exec api) % 256) ∧
    (rs.countP (hardViolation exec api) = 0 → validator_exit spec exec api = some 0) ∧
    (0 < rs.countP (hardViolation exec api) → rs.countP (hardViolation exec api) < 256 →
      validator_exit spec exec api ≠ some 0) ∧
    (∀ r ∈ rs, r.mechanical = true ∧ r.severity ≠ "GUIDANCE") := by
  have hrun : run_validator spec exec api =
      some (rs.countP (passOutcome exec api), rs.countP (hardViolation exec api),
        rs.countP (softViolation exec api)) := by
    unfold run_validator
    rw [h]
    simp only [Option.map_some']
    have hfold := runRule_foldl_counts exec api rs 0 0 0
    simp only [Nat.zero_add] at hfold
    exact congrArg some hfold
  have hexit : validator_exit spec exec api =
      some (rs.countP (hardViolation exec api) % 256) := by
    simp [validator_exit, hrun]
  refine ⟨hrun, hexit, ?_, ?_, ?_⟩
  · intro h0
    rw [hexit, h0]
  · intro hpos hlt heq
    rw [hexit] at heq
    have := Option.some_inj.mp heq
    rw [Nat.mod_eq_of_lt hlt] at this
    omega
  · intro r hr
    simp only [sh_mechanical_rules] at h
    cases hA : rules_by_severity spec "NEVER" with
    | none => rw [hA] at h; exact absurd h (by simp)
    | some A =>
      rw [hA] at h
      cases hB : rules_by_severity spec "MUST" with
      | none => rw [hB] at h; exact absurd h (by simp)
      | some B =>
        rw [hB] at h
        cases hC : rules_by_severity spec "SHOULD" with
        | none => rw [hC] at h; exact absurd h (by simp)
        | some C =>
          rw [hC] at h
          rw [← Option.some_inj.mp h] at hr
          rcases List.mem_append.mp hr with hr' | hr'
          · rcases List.mem_append.mp hr' with hr2 | hr2
            · have hm := List.mem_filter.mp hr2
              have hsev := mem_rules_by_severity spec "NEVER" A hA r hm.1
              refine ⟨hm.2, ?_⟩
              rw [hsev]
              decide
            · have hm := List.mem_filter.mp hr2
              have hsev := mem_rules_by_severity spec "MUST" B hB r hm.1
              refine ⟨hm.2, ?_⟩
              rw [hsev]
              decide
          · have hm := List.mem_filter.mp hr'
            have hsev := mem_rules_by_severity spec "SHOULD" C hC r hm.1
            refine ⟨hm.2, ?_⟩
            rw [hsev]
            decide

/-- Witness for the C6 theorem at a concrete one-rule spec. -/
theorem severity_enforcement_and_exit_witness :
    validator_exit c6WitnessSpec veAll true = some 1 := by
  have h := severity_enforcement_and_exit c6WitnessSpec veAll true [c6WitnessRule] (by decide)
  exact h.2.1.trans (by decide)

set_option maxRecDepth 10000 in
/-- C6 counterexample: in a run where 256 mechanical NEVER rules are
violated the FAIL counter finishes at 256, yet the observed process
exit status is 256 mod 256 = 0 — the exit status does not equal the
FAIL counter, and a violated NEVER rule does not always force a nonzero
exit. -/
theorem exit_status_truncated_at_256_failures :
    validator_exit c6CexSpec veAll true = some 0 ∧
    (run_validator c6CexSpec veAll true).map (fun t => t.2.1) = some 256 := by
  decide

/-- C7: exported rule-database records are sorted by (category letter,
numeric ordinal) ascending with the ordinal compared as an integer: the
spec declaring ids N2, N1, S10, S2, M1 exports records in the order
M1, N1, N2, S2, S10 (S10 after S2, not before as a lexicographic
comparison would give), and every export is sorted under the key
order. -/
theorem export_sorted_by_category_and_ordinal :
    (generate_rules_json_rules c7Spec).map (fun r => r.id) =
      ["M1", "N1", "N2", "S2", "S10"] ∧
    ∀ spec : DomainSpec, List.Sorted jsonKeyLe (generate_rules_json_rules spec) :=
  ⟨by decide, fun _ => List.sorted_insertionSort jsonKeyLe _⟩

/-- C8: a rule with mechanical true and no check mapping, whose other
fields are valid, yields exactly one error; that error names the rule
id and mentions "mechanical"; it is emitted for every provenance value,
i.e. independently of whatever warnings are also emitted for the rule;
and validating a spec holding that rule yields exactly that error. -/
theorem mechanical_without_check_single_error (vr : String → Bool) (today domain rid : String)
    (r : RawRule) (t s : String)
    (ht : r.title = some t) (hs : r.severity = some s) (hmem : s ∈ SEVERITIES)
    (hm : r.mechanical = true) (hc : r.check = none) :
    ruleErrors vr domain rid r =
      [domain ++ ".flight: Rule " ++ rid ++ " has mechanical:true but no check config"] ∧
    containsStr
      (domain ++ ".flight: Rule " ++ rid ++ " has mechanical:true but no check config") rid ∧
    containsStr
      (domain ++ ".flight: Rule " ++ rid ++ " has mechanical:true but no check config")
      "mechanical" ∧
    (validate_spec vr today { rules := [(rid, r)] } domain).1 =
      [domain ++ ".flight: Rule " ++ rid ++ " has mechanical:true but no check config"] := by
  have hsev : ¬(s ≠ "" ∧ s ∉ SEVERITIES) := fun hx => hx.2 hmem
  have hlit : ∀ Y : String,
      Y ++ " has " ++ "mechanical" ++ ":true but no check config" =
        Y ++ " has mechanical:true but no check config" := by
    intro Y
    rw [String.append_assoc, String.append_assoc]
    exact congrArg (fun y => Y ++ y) (by decide)
  have herr : ruleErrors vr domain rid r =
      [domain ++ ".flight: Rule " ++ rid ++ " has mechanical:true but no check config"] := by
    simp [ruleErrors, ht, hs, hc, hm, hsev]
  refine ⟨herr,
    ⟨domain ++ ".flight: Rule ", " has mechanical:true but no check config", rfl⟩,
    ⟨domain ++ ".flight: Rule " ++ rid ++ " has ", ":true but no check config",
      (hlit (domain ++ ".flight: Rule " ++ rid)).symm⟩, ?_⟩
  simp [validate_spec, herr]

/-- Witness for the C8 theorem at concrete inputs. -/
theorem mechanical_without_check_single_error_witness :
    ruleErrors vrAll "demo" "N1" c8WitnessRule =
      ["demo.flight: Rule N1 has mechanical:true but no check config"] :=
  (mechanical_without_check_single_error vrAll "2026-10-12" "demo" "N1" c8WitnessRule
    "No eval" "NEVER" rfl rfl (by decide) rfl rfl).1

/-- C9: sorting — and with it markdown and script generation — raises
exactly when some rule of the requested severity has an id that is not
one leading character followed by a Python-int-parseable tail; yet the
validator accepts such ids without error: a spec whose rule id is
"QA1" validates cleanly while rules_by_severity raises on it. -/
theorem malformed_rule_ids_crash_sorting_not_validation (spec : DomainSpec) (sev : String) :
    (rules_by_severity spec sev = none ↔
      ∃ r ∈ spec.rules, r.severity = sev ∧ ruleSortKey r.id = none) ∧
    (validate_spec vrAll "2026-10-12" qa1RawSpec "demo").1 = [] ∧
    rules_by_severity qa1Spec "NEVER" = none := by
  refine ⟨?_, by decide, by decide⟩
  constructor
  · intro h
    by_cases hall : ((spec.rules.filter fun r => r.severity == sev).all
        fun r => (ruleSortKey r.id).isSome) = true
    · simp only [rules_by_severity] at h
      rw [if_pos hall] at h
      exact absurd h (by simp)
    · have hex : ∃ r ∈ spec.rules.filter (fun r => r.severity == sev),
          ¬(ruleSortKey r.id).isSome = true := by
        by_contra hcon
        push_neg at hcon
        exact hall (List.all_eq_true.mpr fun x hx => hcon x hx)
      obtain ⟨r, hrf, hk⟩ := hex
      have hmem := List.mem_filter.mp hrf
      exact ⟨r, hmem.1, beq_iff_eq.mp hmem.2, Option.not_isSome_iff_eq_none.mp hk⟩
  · rintro ⟨r, hr, hsev, hkey⟩
    have hrf : r ∈ spec.rules.filter (fun x => x.severity == sev) :=
      List.mem_filter.mpr ⟨hr, beq_iff_eq.mpr hsev⟩
    have hall : ¬((spec.rules.filter fun x => x.severity == sev).all
        fun x => (ruleSortKey x.id).isSome) = true := by
      intro hall
      have hx := List.all_eq_true.mp hall r hrf
      rw [hkey] at hx
      exact absurd hx (by simp)
    simp only [rules_by_severity]
    rw [if_neg hall]

end Flight
